import Mathlib

/-!
Shallow embedding of the particle-simulation core of `react-cinematic-snow`
(src/components/WebGLRenderer.ts), and proofs of the specification claims
about it.

Numbers are modelled as exact reals (`ℝ`); every `Math.random()` draw is an
explicit parameter, constrained to `[0,1]` where a claim needs it.  Layer
particle counts, which the source computes with `Math.floor` on plain
numbers, are modelled over `ℚ` so that they evaluate.
-/

namespace Snow

/-- The `Particle` record from `src/types.ts`. -/
structure Particle where
  x : ℝ
  y : ℝ
  radius : ℝ
  opacity : ℝ
  vx : ℝ
  vy : ℝ
  wobble : ℝ
  wobbleSpeed : ℝ
  swayAmplitude : ℝ
  shapeOffsets : List (ℝ × ℝ)
  shapeSeed : ℝ

/-- `const random = (min, max) => Math.random() * (max - min) + min`
(WebGLRenderer.ts:937); the draw `r` stands for `Math.random()`. -/
def random (mn mx r : ℝ) : ℝ := r * (mx - mn) + mn

/-- Wobble phase after one `updateParticles` step: `p.wobble += p.wobbleSpeed`. -/
def wobbleNext (p : Particle) : ℝ := p.wobble + p.wobbleSpeed

/-- The two sway terms of `updateParticles` (computed after the wobble
increment, using the pre-update `y`):
`primarySway = sin(p.wobble) * p.swayAmplitude` and
`secondarySway = cos(p.wobble * 1.8 + p.y * 0.01) * (p.swayAmplitude * 0.2)`. -/
noncomputable def swayTerms (p : Particle) : ℝ :=
  Real.sin (wobbleNext p) * p.swayAmplitude +
    Real.cos (wobbleNext p * 1.8 + p.y * 0.01) * (p.swayAmplitude * 0.2)

/-- Candidate `x` before the wrap checks:
`p.x += (currentWind * wMult) + p.vx + primarySway + secondarySway`. -/
noncomputable def rawX (wMult currentWind : ℝ) (p : Particle) : ℝ :=
  p.x + (currentWind * wMult + p.vx + swayTerms p)

/-- Candidate `y` before the wrap checks: `p.y += speed * p.vy`. -/
def rawY (speed : ℝ) (p : Particle) : ℝ := p.y + speed * p.vy

/-- The horizontal wrap checks of `updateParticles`:
`if (p.x > width + p.radius) p.x = -p.radius; else if (p.x < -p.radius)
p.x = width + p.radius`. -/
noncomputable def wrapX (width radius x : ℝ) : ℝ :=
  if x > width + radius then -radius
  else if x < -radius then width + radius
  else x

/-- One particle step of `updateParticles` (WebGLRenderer.ts:1093-1121).
`rand` is the `Math.random()` used to re-seed `x` when the particle falls
past the bottom; `speed` is the component's `speed` prop captured by the
callback. -/
noncomputable def updateParticle (speed width height wMult currentWind rand : ℝ)
    (p : Particle) : Particle :=
  let x2 := if rawY speed p > height + p.radius then rand * width
            else rawX wMult currentWind p
  let y2 := if rawY speed p > height + p.radius then -p.radius else rawY speed p
  { p with x := wrapX width p.radius x2, y := y2, wobble := wobbleNext p }

/-- `updateParticles` over a whole layer: the source mutates each element of
the array in place; here each index `i` gets its own respawn draw `rnd i`. -/
noncomputable def updateParticles (speed width height wMult currentWind : ℝ)
    (rnd : ℕ → ℝ) (ps : List Particle) : List Particle :=
  ps.mapIdx (fun i p => updateParticle speed width height wMult currentWind (rnd i) p)

/-- `createIrregularShape(radius, rough)` (WebGLRenderer.ts:990-1002):
`points = 5 + Math.floor(Math.random() * 4)`, then one vertex per angular
step with radius modulated by `1 + (Math.random() - 0.5) * rough`.
`rPoints` is the vertex-count draw, `rVerts i` the per-vertex draw. -/
noncomputable def createIrregularShape (radius rough : ℝ) (rPoints : ℝ)
    (rVerts : ℕ → ℝ) : List (ℝ × ℝ) :=
  let points : ℕ := (5 + ⌊rPoints * 4⌋).toNat
  (List.range points).map (fun (i : ℕ) =>
    let angle := ((i : ℝ) / (points : ℝ)) * Real.pi * 2
    let variance := 1 + (rVerts i - 0.5) * rough
    (Real.cos angle * radius * variance, Real.sin angle * radius * variance))

/-- The bundle of `Math.random()` draws consumed by one particle of
`generateParticles`. -/
structure ParticleDraws where
  rRadius : ℝ
  rOpacity : ℝ
  rSpeedVar : ℝ
  rX : ℝ
  rY : ℝ
  rVx : ℝ
  rWobble : ℝ
  rWobbleSpeed : ℝ
  rSway : ℝ
  rPoints : ℝ
  rSeed : ℝ
  rVerts : ℕ → ℝ

/-- The body of the `generateParticles` loop (WebGLRenderer.ts:1004-1048)
for a single particle. -/
noncomputable def mkParticle (width height rMin rMax sMult rough : ℝ)
    (d : ParticleDraws) : Particle :=
  let radius := random rMin rMax d.rRadius
  let sizeFactor := (radius - rMin) / (if rMax - rMin = 0 then 1 else rMax - rMin)
  let opacity := max 0.1 (min 1.0 (0.1 + sizeFactor * 0.7 + (d.rOpacity * 0.6 - 0.3)))
  let baseSpeed := radius / 2.5 * sMult
  let speedVariance := random 0.85 1.15 d.rSpeedVar
  let sizeScale := max 0.5 (radius / 2.5)
  { x := d.rX * width
    y := d.rY * height
    radius := radius
    opacity := opacity
    vx := random (-0.1) 0.1 d.rVx * sizeScale
    vy := baseSpeed * speedVariance
    wobble := d.rWobble * Real.pi * 2
    wobbleSpeed := random 0.005 0.03 d.rWobbleSpeed
    swayAmplitude := random 0.3 0.8 d.rSway * sizeScale
    shapeOffsets := createIrregularShape radius rough d.rPoints d.rVerts
    shapeSeed := d.rSeed * 1000 }

/-- `generateParticles(width, height, count, rMin, rMax, sMult)`:
a list of `count` particles, particle `i` consuming the draws `ds i`. -/
noncomputable def generateParticles (width height : ℝ) (count : ℕ)
    (rMin rMax sMult rough : ℝ) (ds : ℕ → ParticleDraws) : List Particle :=
  (List.range count).map (fun i => mkParticle width height rMin rMax sMult rough (ds i))

/-- `Math.floor(density * 0.8)` — back-layer count (WebGLRenderer.ts:1054). -/
def backCount (density : ℚ) : ℤ := ⌊density * 0.8⌋

/-- `Math.floor(density * 0.5)` — mid-layer count (WebGLRenderer.ts:1063). -/
def midCount (density : ℚ) : ℤ := ⌊density * 0.5⌋

/-- `Math.max(5, Math.floor(density * 0.1))` — front-layer count
(WebGLRenderer.ts:1072). -/
def frontCount (density : ℚ) : ℤ := max 5 ⌊density * 0.1⌋

/-- `Math.max(2, Math.floor(density * 0.004))` — "camera" close-pass count
(WebGLRenderer.ts:1081). -/
def cameraCount (density : ℚ) : ℤ := max 2 ⌊density * 0.004⌋

/-- The three per-layer particle sets held in `particlesRef`. -/
structure Layers where
  back : List Particle
  mid : List Particle
  front : List Particle

/-- Independent draw streams for the four `generateParticles` calls of
`initParticles`. -/
structure InitDraws where
  back : ℕ → ParticleDraws
  mid : ℕ → ParticleDraws
  front : ℕ → ParticleDraws
  camera : ℕ → ParticleDraws

/-- `initParticles(width, height)` (WebGLRenderer.ts:1050-1091): four
`generateParticles` calls with the source's literal arguments; the camera
particles are concatenated onto the front layer. -/
noncomputable def initParticles (density : ℚ) (minRadius maxRadius rough : ℝ)
    (width height : ℝ) (ds : InitDraws) : Layers :=
  { back := generateParticles width height (backCount density).toNat
      (minRadius * 0.5) (maxRadius * 0.6) 0.6 rough ds.back
    mid := generateParticles width height (midCount density).toNat
      minRadius maxRadius 1.0 rough ds.mid
    front :=
      generateParticles width height (frontCount density).toNat
        (max maxRadius 2) (maxRadius * 1.8) 1.4 rough ds.front ++
      generateParticles width height (cameraCount density).toNat
        (maxRadius * 3.5) (maxRadius * 5.5) 2.0 rough ds.camera }

/-- The `windStateRef` record: `{ time, gustTime, gustStrength, gustDirection }`. -/
structure WindState where
  time : ℝ
  gustTime : ℝ
  gustStrength : ℝ
  gustDirection : ℝ

/-- `const gustFactor = state.gustTime > 0 ? Math.sin((state.gustTime / 3) *
Math.PI) * state.gustStrength * state.gustDirection : 0`
(WebGLRenderer.ts:978-981), evaluated on the state after the decrement /
possible gust start. -/
noncomputable def gustFactor (s : WindState) : ℝ :=
  if s.gustTime > 0 then
    Real.sin (s.gustTime / 3 * Real.pi) * s.gustStrength * s.gustDirection
  else 0

/-- `getDynamicWind(baseWind)` (WebGLRenderer.ts:954-987).  The four draws
stand for the `Math.random()` calls: `rStart` decides whether a gust starts
(`< 0.0005`), `rStrength`, `rDir`, `rDur` feed the gust parameters.  Returns
the updated state together with the wind value. -/
noncomputable def getDynamicWind (baseWind rStart rStrength rDir rDur : ℝ)
    (s : WindState) : WindState × ℝ :=
  let time1 := s.time + 0.016
  let slowWave := Real.sin (time1 * 0.05) * 0.7
  let mediumWave := Real.sin (time1 * 0.15) * 0.3
  let quickWave := Real.sin (time1 * 0.8) * 0.1
  let gt1 := s.gustTime - 0.016
  let s1 : WindState :=
    if gt1 ≤ 0 ∧ rStart < 0.0005 then
      { time := time1
        gustTime := 2 + rDur * 3
        gustStrength := 0.5 + rStrength * 1.5
        gustDirection := if rDir > 0.5 then 1 else -1 }
    else
      { s with time := time1, gustTime := gt1 }
  let dynamicMultiplier := 1 + slowWave + mediumWave + quickWave + gustFactor s1
  (s1, baseWind * dynamicMultiplier)

/-- The formula the specification states for the gust contribution:
`sin(π · remaining/duration) · strength · direction`. -/
noncomputable def specGustContribution (remaining duration strength direction : ℝ) : ℝ :=
  Real.sin (Real.pi * remaining / duration) * strength * direction

/-- `hash(n) = fract(sin(n * 12.9898) * 43758.5453123)` from the fragment
shader (WebGLRenderer.ts:51-53). -/
noncomputable def glHash (n : ℝ) : ℝ :=
  Int.fract (Real.sin (n * 12.9898) * 43758.5453123)

/-- GPU-side vertex count: `numPoints = 5 + int(hash(v_seed * 3.7) * 4.0)`
(WebGLRenderer.ts:164); the GLSL `int()` truncation equals `⌊·⌋` on the
non-negative hash output. -/
noncomputable def gpuNumPoints (seed : ℝ) : ℤ :=
  5 + ⌊glHash (seed * 3.7) * 4⌋

/-- CPU-side vertex count: `5 + Math.floor(Math.random() * 4)`
(WebGLRenderer.ts:992); `r` is the draw. -/
noncomputable def cpuNumPoints (r : ℝ) : ℤ := 5 + ⌊r * 4⌋

/-- `getVertex(i, numPoints, seed)` from the fragment shader
(WebGLRenderer.ts:62-73): angle step around the unit point sprite, radius
`0.38` modulated by `1 + (hash(seed + i*7.31) - 0.5) * u_roughness`. -/
noncomputable def getVertex (rough seed : ℝ) (i numPoints : ℕ) : ℝ × ℝ :=
  let angle := ((i : ℝ) / (numPoints : ℝ)) * 6.28318530718
  let randomVal := glHash (seed + (i : ℝ) * 7.31)
  let variance := 1 + (randomVal - 0.5) * rough
  (Real.cos angle * 0.38 * variance, Real.sin angle * 0.38 * variance)

/-- The common variance formula the specification attributes to both
backends: `1 + (r - 0.5) * roughness`. -/
def specVariance (r rough : ℝ) : ℝ := 1 + (r - 0.5) * rough

/-- The state touched by a committed resize: the stable dimensions and the
three regenerated particle layers. -/
structure RenderCtx where
  stableWidth : ℝ
  stableHeight : ℝ
  layers : Layers

/-- `applyResize(width, height)` (WebGLRenderer.ts:1172-1205): records the
new stable dimensions and regenerates every layer via `initParticles`;
the source performs no check on `width` or `height`. -/
noncomputable def applyResize (density : ℚ) (minRadius maxRadius rough : ℝ)
    (ds : InitDraws) (width height : ℝ) (_c : RenderCtx) : RenderCtx :=
  { stableWidth := width
    stableHeight := height
    layers := initParticles density minRadius maxRadius rough width height ds }

/-- The per-frame dimension fallback of `loop` (WebGLRenderer.ts:1277-1280):
`width > 0 ? width : clientWidth` and likewise for the height. -/
noncomputable def loopDims (stableW stableH liveW liveH : ℝ) : ℝ × ℝ :=
  (if stableW > 0 then stableW else liveW, if stableH > 0 then stableH else liveH)

/-- The back-layer advance call of `loop` (WebGLRenderer.ts:1287):
`updateParticles(particlesRef.current.back, w, h, 0.5, currentWind)`. -/
noncomputable def loopAdvanceBack (speed width height currentWind : ℝ)
    (rnd : ℕ → ℝ) (ps : List Particle) : List Particle :=
  updateParticles speed width height 0.5 currentWind rnd ps

/-- The combined alpha of the canvas renderer (WebGLRenderer.ts:1136):
`Math.max(0, Math.min(1, p.opacity * layerOpacity * globalOpacity))`. -/
noncomputable def drawAlpha (opacity layerOpacity globalOpacity : ℝ) : ℝ :=
  max 0 (min 1 (opacity * layerOpacity * globalOpacity))

/-- The back-layer canvas render call of `loop` (WebGLRenderer.ts:1292):
layer opacity `0.3`. -/
noncomputable def loopBackRenderAlpha (globalOpacity : ℝ) (p : Particle) : ℝ :=
  drawAlpha p.opacity 0.3 globalOpacity

/-! ## Helper lemmas -/

lemma updateParticle_x_eq (speed width height wMult currentWind rand : ℝ) (p : Particle) :
    (updateParticle speed width height wMult currentWind rand p).x =
      wrapX width p.radius (if rawY speed p > height + p.radius then rand * width
                            else rawX wMult currentWind p) := rfl

lemma updateParticle_y_eq (speed width height wMult currentWind rand : ℝ) (p : Particle) :
    (updateParticle speed width height wMult currentWind rand p).y =
      (if rawY speed p > height + p.radius then -p.radius else rawY speed p) := rfl

lemma wrapX_mem (width radius x : ℝ) (hw : 0 ≤ width) (hr : 0 ≤ radius) :
    -radius ≤ wrapX width radius x ∧ wrapX width radius x ≤ width + radius := by
  unfold wrapX
  split_ifs with h1 h2
  · constructor <;> linarith
  · constructor <;> linarith
  · push_neg at h1 h2
    exact ⟨h2, h1⟩

lemma wrapX_of_mem (width radius x : ℝ) (h1 : x ≤ width + radius) (h2 : -radius ≤ x) :
    wrapX width radius x = x := by
  unfold wrapX
  rw [if_neg (not_lt.mpr h1), if_neg (not_lt.mpr h2)]

/-! ## Claim theorems -/

/-- C9: every `updateParticles` step modifies only `x`, `y` and `wobble`;
`radius`, `opacity`, `vx`, `vy`, `wobbleSpeed`, `swayAmplitude`,
`shapeOffsets` and `shapeSeed` are unchanged, and `wobble` advances by
exactly `wobbleSpeed`. -/
theorem updateParticle_only_moves_x_y_wobble
    (speed width height wMult currentWind rand : ℝ) (p : Particle) :
    (updateParticle speed width height wMult currentWind rand p).radius = p.radius ∧
    (updateParticle speed width height wMult currentWind rand p).opacity = p.opacity ∧
    (updateParticle speed width height wMult currentWind rand p).vx = p.vx ∧
    (updateParticle speed width height wMult currentWind rand p).vy = p.vy ∧
    (updateParticle speed width height wMult currentWind rand p).wobbleSpeed = p.wobbleSpeed ∧
    (updateParticle speed width height wMult currentWind rand p).swayAmplitude =
      p.swayAmplitude ∧
    (updateParticle speed width height wMult currentWind rand p).shapeOffsets =
      p.shapeOffsets ∧
    (updateParticle speed width height wMult currentWind rand p).shapeSeed = p.shapeSeed ∧
    (updateParticle speed width height wMult currentWind rand p).wobble =
      p.wobble + p.wobbleSpeed :=
  ⟨rfl, rfl, rfl, rfl, rfl, rfl, rfl, rfl, rfl⟩

/-- C1: after one `updateParticles` step the particle stays inside the
padded box `[-radius, width+radius] × [-radius, height+radius]`; a particle
whose updated `y` exceeds `height + radius` re-enters at `y = -radius` with
`x` re-randomized inside `[0, width]`, and otherwise an `x` beyond either
horizontal bound wraps to the opposite edge. -/
theorem updateParticle_wrap_invariant
    (speed width height wMult currentWind rand : ℝ) (p : Particle)
    (hr : 0 ≤ p.radius) (hw : 0 ≤ width) (hh : 0 ≤ height)
    (hy : -p.radius ≤ p.y) (hvy : 0 ≤ speed * p.vy)
    (hrand0 : 0 ≤ rand) (hrand1 : rand ≤ 1) :
    (-p.radius ≤ (updateParticle speed width height wMult currentWind rand p).x ∧
      (updateParticle speed width height wMult currentWind rand p).x ≤ width + p.radius) ∧
    (-p.radius ≤ (updateParticle speed width height wMult currentWind rand p).y ∧
      (updateParticle speed width height wMult currentWind rand p).y ≤ height + p.radius) ∧
    (rawY speed p > height + p.radius →
      (updateParticle speed width height wMult currentWind rand p).y = -p.radius ∧
      (updateParticle speed width height wMult currentWind rand p).x = rand * width ∧
      0 ≤ (updateParticle speed width height wMult currentWind rand p).x ∧
      (updateParticle speed width height wMult currentWind rand p).x ≤ width) ∧
    (rawY speed p ≤ height + p.radius →
      (rawX wMult currentWind p > width + p.radius →
        (updateParticle speed width height wMult currentWind rand p).x = -p.radius) ∧
      (rawX wMult currentWind p < -p.radius →
        (updateParticle speed width height wMult currentWind rand p).x =
          width + p.radius)) := by
  have hx0 : (0:ℝ) ≤ rand * width := mul_nonneg hrand0 hw
  have hx1 : rand * width ≤ width := mul_le_of_le_one_left hw hrand1
  rw [updateParticle_x_eq, updateParticle_y_eq]
  by_cases hY : rawY speed p > height + p.radius
  · rw [if_pos hY, if_pos hY]
    have hwrap : wrapX width p.radius (rand * width) = rand * width :=
      wrapX_of_mem _ _ _ (by linarith) (by linarith)
    rw [hwrap]
    refine ⟨⟨by linarith, by linarith⟩, ⟨by linarith, by linarith⟩,
      fun _ => ⟨rfl, rfl, hx0, hx1⟩, fun h => absurd hY (not_lt.mpr h)⟩
  · rw [if_neg hY, if_neg hY]
    push_neg at hY
    have hylow : -p.radius ≤ rawY speed p := by unfold rawY; linarith
    refine ⟨wrapX_mem _ _ _ hw hr, ⟨hylow, hY⟩,
      fun h => absurd h (not_lt.mpr hY), fun _ => ⟨?_, ?_⟩⟩
    · intro hX1
      unfold wrapX
      rw [if_pos hX1]
    · intro hX2
      unfold wrapX
      rw [if_neg (by push_neg; linarith), if_pos hX2]

/-- Concrete particle used to instantiate the hypothesis-bearing claim
theorems about `updateParticles`. -/
noncomputable def pSample : Particle :=
  { x := 5, y := 5, radius := 1, opacity := 1, vx := 0, vy := 1, wobble := 0
    wobbleSpeed := 0, swayAmplitude := 0, shapeOffsets := [], shapeSeed := 0 }

theorem updateParticle_wrap_invariant_witness :
    ((0:ℝ) ≤ pSample.radius ∧ (0:ℝ) ≤ (100:ℝ) ∧ (0:ℝ) ≤ (100:ℝ) ∧
      -pSample.radius ≤ pSample.y ∧ (0:ℝ) ≤ 1 * pSample.vy ∧
      (0:ℝ) ≤ (1/2:ℝ) ∧ (1/2:ℝ) ≤ 1) ∧
    ((-pSample.radius ≤ (updateParticle 1 100 100 1 0 (1/2) pSample).x ∧
      (updateParticle 1 100 100 1 0 (1/2) pSample).x ≤ 100 + pSample.radius) ∧
    (-pSample.radius ≤ (updateParticle 1 100 100 1 0 (1/2) pSample).y ∧
      (updateParticle 1 100 100 1 0 (1/2) pSample).y ≤ 100 + pSample.radius) ∧
    (rawY 1 pSample > 100 + pSample.radius →
      (updateParticle 1 100 100 1 0 (1/2) pSample).y = -pSample.radius ∧
      (updateParticle 1 100 100 1 0 (1/2) pSample).x = 1/2 * 100 ∧
      0 ≤ (updateParticle 1 100 100 1 0 (1/2) pSample).x ∧
      (updateParticle 1 100 100 1 0 (1/2) pSample).x ≤ 100) ∧
    (rawY 1 pSample ≤ 100 + pSample.radius →
      (rawX 1 0 pSample > 100 + pSample.radius →
        (updateParticle 1 100 100 1 0 (1/2) pSample).x = -pSample.radius) ∧
      (rawX 1 0 pSample < -pSample.radius →
        (updateParticle 1 100 100 1 0 (1/2) pSample).x = 100 + pSample.radius))) :=
  ⟨⟨by norm_num [pSample], by norm_num, by norm_num, by norm_num [pSample],
      by norm_num [pSample], by norm_num, by norm_num⟩,
    updateParticle_wrap_invariant 1 100 100 1 0 (1/2) pSample
      (by norm_num [pSample]) (by norm_num) (by norm_num)
      (by norm_num [pSample]) (by norm_num [pSample]) (by norm_num) (by norm_num)⟩

/-- Concrete particle refuting C3 as stated: zero wind and zero velocities,
but a nonzero sway amplitude. -/
noncomputable def pC3 : Particle :=
  { x := 0, y := 0, radius := 1, opacity := 1, vx := 0, vy := 0, wobble := 0
    wobbleSpeed := Real.pi / 2, swayAmplitude := 1, shapeOffsets := [], shapeSeed := 0 }

/-- C3 (counterexample): with `currentWind = 0` and `vx = vy = 0` the
particle's `x` still changes, because the sway terms act regardless of wind
and velocity.  At this input `x` moves from `0` to `1 + 0.2·cos(0.9π) ≥ 0.8`. -/
theorem updateParticle_sway_counterexample :
    pC3.vx = 0 ∧ pC3.vy = 0 ∧
    (updateParticle 1 100 100 1 0 0 pC3).x ≠ pC3.x := by
  refine ⟨rfl, rfl, ?_⟩
  have hwn : wobbleNext pC3 = Real.pi / 2 := by
    simp [wobbleNext, pC3]
  have hcos1 := Real.neg_one_le_cos (Real.pi / 2 * 1.8 + 0 * 0.01)
  have hcos2 := Real.cos_le_one (Real.pi / 2 * 1.8 + 0 * 0.01)
  have hsw : swayTerms pC3 = 1 + Real.cos (Real.pi / 2 * 1.8 + 0 * 0.01) * 0.2 := by
    unfold swayTerms
    rw [hwn]
    have hy0 : pC3.y = 0 := rfl
    have hs1 : pC3.swayAmplitude = 1 := rfl
    rw [hy0, hs1, Real.sin_pi_div_two]
    ring
  have hrawx : rawX 1 0 pC3 = 1 + Real.cos (Real.pi / 2 * 1.8 + 0 * 0.01) * 0.2 := by
    unfold rawX
    rw [hsw]
    have hx0 : pC3.x = 0 := rfl
    have hv0 : pC3.vx = 0 := rfl
    rw [hx0, hv0]
    ring
  have hY : ¬ (rawY 1 pC3 > 100 + pC3.radius) := by
    unfold rawY
    have : pC3.y + 1 * pC3.vy = 0 := by
      have h1 : pC3.y = 0 := rfl
      have h2 : pC3.vy = 0 := rfl
      rw [h1, h2]; ring
    rw [this]
    have : pC3.radius = 1 := rfl
    rw [this]
    norm_num
  have hxval : (updateParticle 1 100 100 1 0 0 pC3).x = rawX 1 0 pC3 := by
    rw [updateParticle_x_eq, if_neg hY]
    refine wrapX_of_mem _ _ _ ?_ ?_
    · rw [hrawx]
      have : pC3.radius = 1 := rfl
      rw [this]
      linarith
    · rw [hrawx]
      have : pC3.radius = 1 := rfl
      rw [this]
      linarith
  rw [hxval, hrawx]
  have : pC3.x = 0 := rfl
  rw [this]
  intro h
  linarith

/-- C3 (amended): with `currentWind = 0`, zero velocities **and zero sway
amplitude**, an in-bounds particle keeps its position; only the wobble phase
advances, by `wobbleSpeed`. -/
theorem updateParticle_zero_motion
    (speed width height wMult rand : ℝ) (p : Particle)
    (hsway : p.swayAmplitude = 0) (hvx : p.vx = 0) (hvy : p.vy = 0)
    (hy : p.y ≤ height + p.radius) (hx1 : p.x ≤ width + p.radius)
    (hx2 : -p.radius ≤ p.x) :
    (updateParticle speed width height wMult 0 rand p).x = p.x ∧
    (updateParticle speed width height wMult 0 rand p).y = p.y ∧
    (updateParticle speed width height wMult 0 rand p).wobble =
      p.wobble + p.wobbleSpeed := by
  have hsw : swayTerms p = 0 := by
    unfold swayTerms
    rw [hsway]
    ring
  have hrawx : rawX wMult 0 p = p.x := by
    unfold rawX
    rw [hsw, hvx]
    ring
  have hrawy : rawY speed p = p.y := by
    unfold rawY
    rw [hvy]
    ring
  have hY : ¬ (rawY speed p > height + p.radius) := by
    rw [hrawy]
    exact not_lt.mpr hy
  refine ⟨?_, ?_, rfl⟩
  · rw [updateParticle_x_eq, if_neg hY, hrawx]
    exact wrapX_of_mem _ _ _ hx1 hx2
  · rw [updateParticle_y_eq, if_neg hY, hrawy]

theorem updateParticle_zero_motion_witness :
    (pSample.swayAmplitude = 0 ∧ pSample.vx = 0 ∧ (0:ℝ) = 0 ∧
      pSample.y ≤ 100 + pSample.radius ∧ pSample.x ≤ 100 + pSample.radius ∧
      -pSample.radius ≤ pSample.x) ∧
    ((updateParticle 1 100 100 1 0 0 { pSample with vy := 0 }).x =
        ({ pSample with vy := 0 } : Particle).x ∧
      (updateParticle 1 100 100 1 0 0 { pSample with vy := 0 }).y =
        ({ pSample with vy := 0 } : Particle).y ∧
      (updateParticle 1 100 100 1 0 0 { pSample with vy := 0 }).wobble =
        ({ pSample with vy := 0 } : Particle).wobble +
          ({ pSample with vy := 0 } : Particle).wobbleSpeed) :=
  ⟨⟨rfl, rfl, rfl, by norm_num [pSample], by norm_num [pSample], by norm_num [pSample]⟩,
    updateParticle_zero_motion 1 100 100 1 0 { pSample with vy := 0 }
      rfl rfl rfl (by norm_num [pSample]) (by norm_num [pSample])
      (by norm_num [pSample])⟩

/-- C6: with `density = 1200`, `initParticles` yields 960 back-layer,
600 mid-layer and 120 front-layer particles, plus 4 close-pass "camera"
particles appended to the front layer for a front total of 124. -/
theorem initParticles_density1200_counts
    (minRadius maxRadius rough width height : ℝ) (ds : InitDraws) :
    (initParticles 1200 minRadius maxRadius rough width height ds).back.length = 960 ∧
    (initParticles 1200 minRadius maxRadius rough width height ds).mid.length = 600 ∧
    (frontCount 1200).toNat = 120 ∧
    (cameraCount 1200).toNat = 4 ∧
    (initParticles 1200 minRadius maxRadius rough width height ds).front.length = 124 := by
  have hb : (backCount 1200).toNat = 960 := by unfold backCount; norm_num; rfl
  have hm : (midCount 1200).toNat = 600 := by unfold midCount; norm_num; rfl
  have hf : (frontCount 1200).toNat = 120 := by unfold frontCount; norm_num; rfl
  have hc : (cameraCount 1200).toNat = 4 := by unfold cameraCount; norm_num; rfl
  refine ⟨?_, ?_, hf, hc, ?_⟩
  · simp [initParticles, generateParticles, hb]
  · simp [initParticles, generateParticles, hm]
  · simp [initParticles, generateParticles, hf, hc]

/-- C7: every particle built by `generateParticles` with draws in `[0,1]`
and `rMin ≤ rMax` has its radius in `[rMin, rMax]`, and its opacity equals
the clamp of `0.1 + sizeFactor·0.7 + u` for the uniform term
`u = rOpacity·0.6 − 0.3 ∈ [−0.3, 0.3]`, hence lies in `[0.1, 1]`. -/
theorem generateParticles_radius_opacity_bounds
    (width height : ℝ) (count : ℕ) (rMin rMax sMult rough : ℝ)
    (ds : ℕ → ParticleDraws) (p : Particle)
    (hle : rMin ≤ rMax)
    (hr : ∀ i, 0 ≤ (ds i).rRadius ∧ (ds i).rRadius ≤ 1)
    (ho : ∀ i, 0 ≤ (ds i).rOpacity ∧ (ds i).rOpacity ≤ 1)
    (hp : p ∈ generateParticles width height count rMin rMax sMult rough ds) :
    (rMin ≤ p.radius ∧ p.radius ≤ rMax) ∧
    (∃ u : ℝ, -0.3 ≤ u ∧ u ≤ 0.3 ∧
      p.opacity = max 0.1 (min 1.0 (0.1 +
        (p.radius - rMin) / (if rMax - rMin = 0 then 1 else rMax - rMin) * 0.7 + u))) ∧
    (0.1 ≤ p.opacity ∧ p.opacity ≤ 1.0) := by
  simp only [generateParticles, List.mem_map, List.mem_range] at hp
  obtain ⟨i, _, hpi⟩ := hp
  subst hpi
  have h0 := (hr i).1
  have h1 := (hr i).2
  have hΔ : 0 ≤ rMax - rMin := by linarith
  have hradius : (mkParticle width height rMin rMax sMult rough (ds i)).radius =
      (ds i).rRadius * (rMax - rMin) + rMin := rfl
  refine ⟨?_, ?_, ?_⟩
  · rw [hradius]
    constructor
    · nlinarith
    · nlinarith [mul_le_mul_of_nonneg_right h1 hΔ]
  · refine ⟨(ds i).rOpacity * 0.6 - 0.3, by linarith [(ho i).1], by linarith [(ho i).2], ?_⟩
    rw [hradius]
    rfl
  · constructor
    · exact le_max_left _ _
    · exact max_le (by norm_num) (min_le_left _ _)

/-- A concrete draw bundle (every draw `1/2`) used by the witnesses. -/
noncomputable def dSample : ParticleDraws :=
  { rRadius := 1/2, rOpacity := 1/2, rSpeedVar := 1/2, rX := 1/2, rY := 1/2
    rVx := 1/2, rWobble := 1/2, rWobbleSpeed := 1/2, rSway := 1/2
    rPoints := 1/2, rSeed := 1/2, rVerts := fun _ => 1/2 }

theorem generateParticles_radius_opacity_bounds_witness :
    ((0:ℝ) ≤ 1 ∧ (0 ≤ dSample.rRadius ∧ dSample.rRadius ≤ 1) ∧
      (0 ≤ dSample.rOpacity ∧ dSample.rOpacity ≤ 1) ∧
      mkParticle 100 100 0 1 1 1 dSample ∈
        generateParticles 100 100 1 0 1 1 1 (fun _ => dSample)) ∧
    ((0 ≤ (mkParticle 100 100 0 1 1 1 dSample).radius ∧
        (mkParticle 100 100 0 1 1 1 dSample).radius ≤ 1) ∧
      (∃ u : ℝ, -0.3 ≤ u ∧ u ≤ 0.3 ∧
        (mkParticle 100 100 0 1 1 1 dSample).opacity = max 0.1 (min 1.0 (0.1 +
          ((mkParticle 100 100 0 1 1 1 dSample).radius - 0) /
            (if (1:ℝ) - 0 = 0 then 1 else 1 - 0) * 0.7 + u))) ∧
      (0.1 ≤ (mkParticle 100 100 0 1 1 1 dSample).opacity ∧
        (mkParticle 100 100 0 1 1 1 dSample).opacity ≤ 1.0)) := by
  have hmem : mkParticle 100 100 0 1 1 1 dSample ∈
      generateParticles 100 100 1 0 1 1 1 (fun _ => dSample) := by
    simp [generateParticles]
  exact ⟨⟨by norm_num, ⟨by norm_num [dSample], by norm_num [dSample]⟩,
      ⟨by norm_num [dSample], by norm_num [dSample]⟩, hmem⟩,
    generateParticles_radius_opacity_bounds 100 100 1 0 1 1 1 _ _
      (by norm_num) (fun _ => ⟨by norm_num [dSample], by norm_num [dSample]⟩)
      (fun _ => ⟨by norm_num [dSample], by norm_num [dSample]⟩) hmem⟩

/-- C10: with a degenerate radius range (`rMax = rMin`) the `|| 1` fallback
makes the size-factor denominator `1`, the size factor itself `0`, and the
opacity is still the well-defined clamp `max 0.1 (min 1 (0.1 + u))`, which
lies in `[0.1, 1]`. -/
theorem mkParticle_degenerate_range_opacity
    (width height rMin sMult rough : ℝ) (d : ParticleDraws) :
    ((mkParticle width height rMin rMin sMult rough d).radius - rMin) /
        (if rMin - rMin = 0 then 1 else rMin - rMin) = 0 ∧
    (mkParticle width height rMin rMin sMult rough d).opacity =
      max 0.1 (min 1.0 (0.1 + 0 * 0.7 + (d.rOpacity * 0.6 - 0.3))) ∧
    0.1 ≤ (mkParticle width height rMin rMin sMult rough d).opacity ∧
    (mkParticle width height rMin rMin sMult rough d).opacity ≤ 1.0 := by
  have hradius : (mkParticle width height rMin rMin sMult rough d).radius = rMin := by
    show random rMin rMin d.rRadius = rMin
    unfold random
    ring
  have hsf : ((mkParticle width height rMin rMin sMult rough d).radius - rMin) /
      (if rMin - rMin = 0 then 1 else rMin - rMin) = 0 := by
    rw [hradius, sub_self, if_pos rfl, zero_div]
  refine ⟨hsf, ?_, le_max_left _ _, max_le (by norm_num) (min_le_left _ _)⟩
  show max 0.1 (min 1.0 (0.1 + (random rMin rMin d.rRadius - rMin) /
      (if rMin - rMin = 0 then 1 else rMin - rMin) * 0.7 + (d.rOpacity * 0.6 - 0.3))) = _
  rw [show random rMin rMin d.rRadius = rMin from by unfold random; ring,
    sub_self, if_pos rfl, zero_div]

/-- C8: for any `(shapeSeed, roughness)`, the GPU vertex count
`5 + int(hash(seed·3.7)·4)` and the CPU vertex count `5 + ⌊U(0,1)·4⌋` both
lie in `[5, 8]`, and both sides modulate each vertex radius by the same
variance formula `1 + (r − 0.5)·roughness` applied to their respective draw
(`hash(seed + i·7.31)` on the GPU, the per-vertex uniform draw on the CPU). -/
theorem shape_formula_equivalence (seed rough r radius : ℝ) (rVerts : ℕ → ℝ)
    (h0 : 0 ≤ r) (h1 : r < 1) :
    (5 ≤ gpuNumPoints seed ∧ gpuNumPoints seed ≤ 8) ∧
    (5 ≤ cpuNumPoints r ∧ cpuNumPoints r ≤ 8) ∧
    (∀ i numPoints : ℕ, getVertex rough seed i numPoints =
      (Real.cos (((i : ℝ) / (numPoints : ℝ)) * 6.28318530718) * 0.38 *
          specVariance (glHash (seed + (i : ℝ) * 7.31)) rough,
        Real.sin (((i : ℝ) / (numPoints : ℝ)) * 6.28318530718) * 0.38 *
          specVariance (glHash (seed + (i : ℝ) * 7.31)) rough)) ∧
    createIrregularShape radius rough r rVerts =
      (List.range (cpuNumPoints r).toNat).map (fun (i : ℕ) =>
        (Real.cos (((i : ℝ) / (((cpuNumPoints r).toNat : ℕ) : ℝ)) * Real.pi * 2) *
            radius * specVariance (rVerts i) rough,
          Real.sin (((i : ℝ) / (((cpuNumPoints r).toNat : ℕ) : ℝ)) * Real.pi * 2) *
            radius * specVariance (rVerts i) rough)) := by
  have hg0 : (0:ℝ) ≤ glHash (seed * 3.7) := Int.fract_nonneg _
  have hg1 : glHash (seed * 3.7) < 1 := Int.fract_lt_one _
  refine ⟨?_, ?_, fun i numPoints => rfl, rfl⟩
  · unfold gpuNumPoints
    constructor
    · have h : (0:ℤ) ≤ ⌊glHash (seed * 3.7) * 4⌋ :=
        Int.le_floor.mpr (by push_cast; nlinarith)
      omega
    · have h : ⌊glHash (seed * 3.7) * 4⌋ < 4 :=
        Int.floor_lt.mpr (by push_cast; nlinarith)
      omega
  · unfold cpuNumPoints
    constructor
    · have h : (0:ℤ) ≤ ⌊r * 4⌋ := Int.le_floor.mpr (by push_cast; nlinarith)
      omega
    · have h : ⌊r * 4⌋ < 4 := Int.floor_lt.mpr (by push_cast; nlinarith)
      omega

theorem shape_formula_equivalence_witness :
    ((0:ℝ) ≤ (1/2:ℝ) ∧ (1/2:ℝ) < 1) ∧
    ((5 ≤ gpuNumPoints 1 ∧ gpuNumPoints 1 ≤ 8) ∧
      (5 ≤ cpuNumPoints (1/2) ∧ cpuNumPoints (1/2) ≤ 8) ∧
      (∀ i numPoints : ℕ, getVertex 1 1 i numPoints =
        (Real.cos (((i : ℝ) / (numPoints : ℝ)) * 6.28318530718) * 0.38 *
            specVariance (glHash (1 + (i : ℝ) * 7.31)) 1,
          Real.sin (((i : ℝ) / (numPoints : ℝ)) * 6.28318530718) * 0.38 *
            specVariance (glHash (1 + (i : ℝ) * 7.31)) 1)) ∧
      createIrregularShape 2 1 (1/2) (fun _ => 1/2) =
        (List.range (cpuNumPoints (1/2)).toNat).map (fun (i : ℕ) =>
          (Real.cos (((i : ℝ) / (((cpuNumPoints (1/2)).toNat : ℕ) : ℝ)) * Real.pi * 2) *
              2 * specVariance ((fun _ : ℕ => (1/2:ℝ)) i) 1,
            Real.sin (((i : ℝ) / (((cpuNumPoints (1/2)).toNat : ℕ) : ℝ)) * Real.pi * 2) *
              2 * specVariance ((fun _ : ℕ => (1/2:ℝ)) i) 1))) :=
  ⟨⟨by norm_num, by norm_num⟩,
    shape_formula_equivalence 1 1 (1/2) 2 (fun _ => 1/2) (by norm_num) (by norm_num)⟩

lemma getDynamicWind_fst (baseWind rStart rStrength rDir rDur : ℝ) (s : WindState) :
    (getDynamicWind baseWind rStart rStrength rDir rDur s).1 =
      if s.gustTime - 0.016 ≤ 0 ∧ rStart < 0.0005 then
        { time := s.time + 0.016
          gustTime := 2 + rDur * 3
          gustStrength := 0.5 + rStrength * 1.5
          gustDirection := if rDir > 0.5 then 1 else -1 }
      else
        { time := s.time + 0.016
          gustTime := s.gustTime - 0.016
          gustStrength := s.gustStrength
          gustDirection := s.gustDirection } := rfl

/-- C2 (counterexample): start a gust with drawn duration 2 (so
`remaining = duration = 2` at the very first evaluation).  The claim's
formula `sin(π·remaining/duration)·strength·direction` yields `sin π = 0`,
but the code's gust contribution is `sin((2/3)·π) = √3/2 ≠ 0`: the envelope
denominator is the constant 3, not the drawn duration. -/
theorem gust_duration_counterexample :
    ((getDynamicWind 1 0 (1/3) 1 0 ⟨0, 0, 0, 0⟩).1.gustTime = 2 ∧
      (getDynamicWind 1 0 (1/3) 1 0 ⟨0, 0, 0, 0⟩).1.gustStrength = 1 ∧
      (getDynamicWind 1 0 (1/3) 1 0 ⟨0, 0, 0, 0⟩).1.gustDirection = 1) ∧
    gustFactor (getDynamicWind 1 0 (1/3) 1 0 ⟨0, 0, 0, 0⟩).1 ≠
      specGustContribution 2 2 1 1 := by
  have hcond : ((⟨0, 0, 0, 0⟩ : WindState).gustTime - 0.016 ≤ 0 ∧ (0:ℝ) < 0.0005) := by
    constructor <;> norm_num
  have hs1 : (getDynamicWind 1 0 (1/3) 1 0 ⟨0, 0, 0, 0⟩).1 =
      ({ time := 0.016, gustTime := 2, gustStrength := 1, gustDirection := 1 } :
        WindState) := by
    rw [getDynamicWind_fst, if_pos hcond]
    have hd : ((if (1:ℝ) > 0.5 then 1 else -1 : ℝ)) = 1 := if_pos (by norm_num)
    simp only [hd, WindState.mk.injEq]
    norm_num
  rw [hs1]
  refine ⟨⟨rfl, rfl, rfl⟩, ?_⟩
  have hpos : (({ time := 0.016, gustTime := 2, gustStrength := 1, gustDirection := 1 } :
      WindState)).gustTime > 0 := by norm_num
  have hgf : gustFactor
      ({ time := 0.016, gustTime := 2, gustStrength := 1, gustDirection := 1 } :
        WindState) = Real.sin (2 / 3 * Real.pi) := by
    unfold gustFactor
    rw [if_pos hpos]
    norm_num
  have hspec : specGustContribution 2 2 1 1 = 0 := by
    unfold specGustContribution
    rw [show Real.pi * 2 / 2 = Real.pi by ring, Real.sin_pi]
    ring
  rw [hgf, hspec]
  rw [show (2:ℝ) / 3 * Real.pi = Real.pi - Real.pi / 3 by ring, Real.sin_pi_sub,
    Real.sin_pi_div_three]
  have h3 : (0:ℝ) < Real.sqrt 3 := Real.sqrt_pos.mpr (by norm_num)
  intro h
  nlinarith

/-- C2 (amended): starting from an idle gust state, a start draw below
0.0005 launches a gust whose duration lies in `[2, 5]` seconds, strength in
`[0.5, 2.0]` and direction `±1`; while the remaining time is positive the
gust contribution is `sin(π · remaining/3) · strength · direction` — the
envelope's half-period is the constant 3 seconds, not the drawn duration —
the contribution is 0 once the remaining time is ≤ 0, the remaining time
decrements by 0.016 per call while active, and the returned wind is
`baseWind · (1 + slow + medium + quick + gustContribution)`. -/
theorem getDynamicWind_gust_behavior
    (baseWind rStart rStrength rDir rDur : ℝ) (s : WindState)
    (hidle : s.gustTime ≤ 0.016) (hstart : rStart < 0.0005)
    (hs0 : 0 ≤ rStrength) (hs1 : rStrength ≤ 1)
    (hd0 : 0 ≤ rDur) (hd1 : rDur ≤ 1) :
    (2 ≤ (getDynamicWind baseWind rStart rStrength rDir rDur s).1.gustTime ∧
      (getDynamicWind baseWind rStart rStrength rDir rDur s).1.gustTime ≤ 5) ∧
    (0.5 ≤ (getDynamicWind baseWind rStart rStrength rDir rDur s).1.gustStrength ∧
      (getDynamicWind baseWind rStart rStrength rDir rDur s).1.gustStrength ≤ 2) ∧
    ((getDynamicWind baseWind rStart rStrength rDir rDur s).1.gustDirection = 1 ∨
      (getDynamicWind baseWind rStart rStrength rDir rDur s).1.gustDirection = -1) ∧
    (∀ s2 : WindState, 0 < s2.gustTime →
      gustFactor s2 =
        Real.sin (Real.pi * s2.gustTime / 3) * s2.gustStrength * s2.gustDirection) ∧
    (∀ s2 : WindState, s2.gustTime ≤ 0 → gustFactor s2 = 0) ∧
    (∀ s2 : WindState, 0.016 < s2.gustTime →
      (getDynamicWind baseWind rStart rStrength rDir rDur s2).1.gustTime =
        s2.gustTime - 0.016) ∧
    (getDynamicWind baseWind rStart rStrength rDir rDur s).2 =
      baseWind * (1 + Real.sin ((s.time + 0.016) * 0.05) * 0.7 +
        Real.sin ((s.time + 0.016) * 0.15) * 0.3 +
        Real.sin ((s.time + 0.016) * 0.8) * 0.1 +
        gustFactor (getDynamicWind baseWind rStart rStrength rDir rDur s).1) := by
  have hcond : s.gustTime - 0.016 ≤ 0 ∧ rStart < 0.0005 := ⟨by linarith, hstart⟩
  have hs : (getDynamicWind baseWind rStart rStrength rDir rDur s).1 =
      ({ time := s.time + 0.016, gustTime := 2 + rDur * 3
         gustStrength := 0.5 + rStrength * 1.5
         gustDirection := if rDir > 0.5 then 1 else -1 } : WindState) := by
    rw [getDynamicWind_fst, if_pos hcond]
  refine ⟨?_, ?_, ?_, ?_, ?_, ?_, ?_⟩
  · rw [hs]
    exact ⟨by simp only; linarith, by simp only; linarith⟩
  · rw [hs]
    exact ⟨by simp only; linarith, by simp only; linarith⟩
  · rw [hs]
    simp only
    split_ifs with h
    · exact Or.inl rfl
    · exact Or.inr rfl
  · intro s2 h2
    unfold gustFactor
    rw [if_pos h2]
    congr 1
    ring
  · intro s2 h2
    unfold gustFactor
    rw [if_neg (not_lt.mpr h2)]
  · intro s2 h2
    rw [getDynamicWind_fst,
      if_neg (fun hc => absurd hc.1 (not_le.mpr (by linarith)))]
  · rfl

theorem getDynamicWind_gust_behavior_witness :
    (((⟨0, 0, 0, 0⟩ : WindState).gustTime ≤ 0.016 ∧ (0:ℝ) < 0.0005 ∧
      (0:ℝ) ≤ 1 ∧ (1:ℝ) ≤ 1 ∧ (0:ℝ) ≤ 1 ∧ (1:ℝ) ≤ 1) ∧
    (2 ≤ (getDynamicWind 1 0 1 1 1 ⟨0, 0, 0, 0⟩).1.gustTime ∧
      (getDynamicWind 1 0 1 1 1 ⟨0, 0, 0, 0⟩).1.gustTime ≤ 5) ∧
    (0.5 ≤ (getDynamicWind 1 0 1 1 1 ⟨0, 0, 0, 0⟩).1.gustStrength ∧
      (getDynamicWind 1 0 1 1 1 ⟨0, 0, 0, 0⟩).1.gustStrength ≤ 2) ∧
    gustFactor ⟨0, 3, 1, 1⟩ =
      Real.sin (Real.pi * (⟨0, 3, 1, 1⟩ : WindState).gustTime / 3) *
        (⟨0, 3, 1, 1⟩ : WindState).gustStrength *
        (⟨0, 3, 1, 1⟩ : WindState).gustDirection ∧
    gustFactor ⟨0, -1, 1, 1⟩ = 0 ∧
    (getDynamicWind 1 0 1 1 1 ⟨0, 4, 1, 1⟩).1.gustTime = 4 - 0.016) := by
  have h := getDynamicWind_gust_behavior 1 0 1 1 1 ⟨0, 0, 0, 0⟩
    (by norm_num) (by norm_num) (by norm_num) (by norm_num) (by norm_num) (by norm_num)
  exact ⟨⟨by norm_num, by norm_num, by norm_num, by norm_num, by norm_num, by norm_num⟩,
    h.1, h.2.1,
    h.2.2.2.1 ⟨0, 3, 1, 1⟩ (by norm_num),
    h.2.2.2.2.1 ⟨0, -1, 1, 1⟩ (by norm_num),
    h.2.2.2.2.2.1 ⟨0, 4, 1, 1⟩ (by norm_num)⟩

/-- Concrete draw streams for the `initParticles` calls of the witnesses and
counterexamples. -/
noncomputable def dsSample : InitDraws :=
  { back := fun _ => dSample, mid := fun _ => dSample
    front := fun _ => dSample, camera := fun _ => dSample }

/-- A concrete pre-resize context: committed dimensions 100×100 and empty
particle sets. -/
def ctx0 : RenderCtx := { stableWidth := 100, stableHeight := 100
                          layers := { back := [], mid := [], front := [] } }

/-- C4 (counterexample): committing a resize to the degenerate dimensions
`(0, 0)` is *not* a no-op — `applyResize` overwrites the stable dimensions
and regenerates all particles (960 back-layer particles from `density =
1200`), because the source has no `width ≤ 0 / height ≤ 0` guard on the
commit path. -/
theorem applyResize_degenerate_counterexample :
    (applyResize 1200 0.2 2.3 1.6 dsSample 0 0 ctx0).stableWidth = 0 ∧
    ctx0.stableWidth = 100 ∧
    (applyResize 1200 0.2 2.3 1.6 dsSample 0 0 ctx0).layers.back.length = 960 ∧
    ctx0.layers.back.length = 0 := by
  refine ⟨rfl, rfl, ?_, rfl⟩
  have hb : (backCount 1200).toNat = 960 := by unfold backCount; norm_num; rfl
  simp [applyResize, initParticles, generateParticles, hb]

/-- C4 (amended): `applyResize` commits unconditionally — also for `width ≤ 0`
or `height ≤ 0` it records the new stable dimensions and regenerates every
layer with the layer-count formulas; degenerate dimensions are compensated
only in the frame loop, whose dimension fallback substitutes the live
container dimensions whenever a stable dimension is `≤ 0`. -/
theorem applyResize_unconditional (density : ℚ) (minRadius maxRadius rough : ℝ)
    (ds : InitDraws) (width height : ℝ) (c : RenderCtx) :
    (applyResize density minRadius maxRadius rough ds width height c).stableWidth =
      width ∧
    (applyResize density minRadius maxRadius rough ds width height c).stableHeight =
      height ∧
    (applyResize density minRadius maxRadius rough ds width height c).layers.back.length =
      (backCount density).toNat ∧
    (applyResize density minRadius maxRadius rough ds width height c).layers.mid.length =
      (midCount density).toNat ∧
    (applyResize density minRadius maxRadius rough ds width height c).layers.front.length =
      (frontCount density).toNat + (cameraCount density).toNat ∧
    (∀ stW stH liveW liveH : ℝ, stW ≤ 0 → (loopDims stW stH liveW liveH).1 = liveW) ∧
    (∀ stW stH liveW liveH : ℝ, stH ≤ 0 → (loopDims stW stH liveW liveH).2 = liveH) := by
  refine ⟨rfl, rfl, ?_, ?_, ?_, ?_, ?_⟩
  · simp [applyResize, initParticles, generateParticles]
  · simp [applyResize, initParticles, generateParticles]
  · simp [applyResize, initParticles, generateParticles]
  · intro stW stH liveW liveH h
    unfold loopDims
    simp [not_lt.mpr h]
  · intro stW stH liveW liveH h
    unfold loopDims
    simp [not_lt.mpr h]

theorem applyResize_unconditional_witness :
    ((applyResize 1200 0.2 2.3 1.6 dsSample 0 0 ctx0).stableWidth = 0 ∧
      (applyResize 1200 0.2 2.3 1.6 dsSample 0 0 ctx0).stableHeight = 0 ∧
      (applyResize 1200 0.2 2.3 1.6 dsSample 0 0 ctx0).layers.back.length =
        (backCount 1200).toNat ∧
      (applyResize 1200 0.2 2.3 1.6 dsSample 0 0 ctx0).layers.mid.length =
        (midCount 1200).toNat ∧
      (applyResize 1200 0.2 2.3 1.6 dsSample 0 0 ctx0).layers.front.length =
        (frontCount 1200).toNat + (cameraCount 1200).toNat) ∧
    ((0:ℝ) ≤ 0 ∧ (loopDims 0 0 640 480).1 = 640 ∧ (loopDims 0 0 640 480).2 = 480) := by
  have h := applyResize_unconditional 1200 0.2 2.3 1.6 dsSample 0 0 ctx0
  exact ⟨⟨h.1, h.2.1, h.2.2.1, h.2.2.2.1, h.2.2.2.2.1⟩,
    le_refl 0, h.2.2.2.2.2.1 0 0 640 480 (le_refl 0),
    h.2.2.2.2.2.2 0 0 640 480 (le_refl 0)⟩

/-- An isolation particle for measuring the wind term of the back-layer
advance: zero sway, zero velocities. -/
noncomputable def pB : Particle :=
  { x := 0, y := 0, radius := 1, opacity := 1, vx := 0, vy := 0, wobble := 0
    wobbleSpeed := 0, swayAmplitude := 0, shapeOffsets := [], shapeSeed := 0 }

/-- Draw streams whose back stream draws `rRadius = 0` (so the first back
particle sits at the bottom of its radius range). -/
noncomputable def dsB : InitDraws :=
  { back := fun _ => { dSample with rRadius := 0 }, mid := fun _ => dSample
    front := fun _ => dSample, camera := fun _ => dSample }

lemma updateParticles_singleton (speed width height wMult currentWind : ℝ)
    (rnd : ℕ → ℝ) (p : Particle) :
    updateParticles speed width height wMult currentWind rnd [p] =
      [updateParticle speed width height wMult currentWind (rnd 0) p] := rfl

/-- C5 (counterexample): the back layer is *not* tuned with a 0.6× wind
multiplier, a 0.5× fall-speed multiplier and a 0.6× base count.  With
`currentWind = 1` and all other motion zeroed, the back-layer advance moves
`x` by `0.5`, not `0.6`; a back particle of radius 2.5 with unit speed
variance gets `vy = 0.6`, not `2.5/2.5 · 0.5 · 1 = 0.5`; and `density =
1200` yields 960 back particles, not `⌊1200·0.6⌋ = 720`. -/
theorem backLayer_tuning_counterexample :
    ((loopAdvanceBack 1 100 100 1 (fun _ => 0) [pB]).map Particle.x = [0.5] ∧
      (0.5 : ℝ) ≠ 0.6 * 1) ∧
    (((initParticles 1200 5 10 1 100 100 dsB).back[0]?).map Particle.vy =
        some 0.6 ∧
      (0.6 : ℝ) ≠ 2.5 / 2.5 * 0.5 * 1) ∧
    ((backCount 1200).toNat = 960 ∧ (⌊(1200:ℚ) * 0.6⌋).toNat = 720 ∧
      (960 : ℕ) ≠ 720) := by
  have hb : (backCount 1200).toNat = 960 := by unfold backCount; norm_num; rfl
  refine ⟨⟨?_, by norm_num⟩, ⟨?_, by norm_num⟩, hb, by norm_num; rfl, by norm_num⟩
  · have hsw : swayTerms pB = 0 := by
      unfold swayTerms
      rw [show pB.swayAmplitude = 0 from rfl]
      ring
    have hrx : rawX 0.5 1 pB = 0.5 := by
      unfold rawX
      rw [hsw, show pB.x = 0 from rfl, show pB.vx = 0 from rfl]
      ring
    have hry : ¬ (rawY 1 pB > 100 + pB.radius) := by
      unfold rawY
      rw [show pB.y = 0 from rfl, show pB.vy = 0 from rfl,
        show pB.radius = 1 from rfl]
      norm_num
    unfold loopAdvanceBack
    rw [updateParticles_singleton]
    simp only [List.map_cons, List.map_nil, List.cons.injEq, and_true]
    rw [updateParticle_x_eq, if_neg hry, hrx]
    rw [wrapX_of_mem _ _ _ (by rw [show pB.radius = 1 from rfl]; norm_num)
      (by rw [show pB.radius = 1 from rfl]; norm_num)]
  · have hhead : (initParticles 1200 5 10 1 100 100 dsB).back[0]? =
        some (mkParticle 100 100 (5 * 0.5) (10 * 0.6) 0.6 1
          { dSample with rRadius := 0 }) := by
      show (generateParticles 100 100 (backCount 1200).toNat (5 * 0.5) (10 * 0.6)
        0.6 1 dsB.back)[0]? = _
      unfold generateParticles
      rw [List.getElem?_map, hb, List.getElem?_range (by norm_num)]
      rfl
    rw [hhead]
    show some ((mkParticle 100 100 (5 * 0.5) (10 * 0.6) 0.6 1
      { dSample with rRadius := 0 }).vy) = some 0.6
    congr 1
    show random (5 * 0.5) (10 * 0.6) 0 / 2.5 * 0.6 *
      random 0.85 1.15 dSample.rSpeedVar = 0.6
    rw [show dSample.rSpeedVar = 1/2 from rfl]
    unfold random
    norm_num

/-- C5 (amended): relative to the mid layer, the back layer uses a **0.5×**
wind multiplier during advance, a **0.6×** fall-speed multiplier applied to
`vy` at creation, a **0.8×** base particle count, and a 0.3 layer opacity at
render time. -/
theorem backLayer_tuning (density : ℚ) (minRadius maxRadius rough w h : ℝ)
    (ds : InitDraws) (speed width height currentWind : ℝ) (rnd : ℕ → ℝ)
    (p : Particle)
    (hsway : p.swayAmplitude = 0) (hvx : p.vx = 0) (hvy : p.vy = 0)
    (hy : p.y ≤ height + p.radius)
    (hx1 : p.x + currentWind * 0.5 ≤ width + p.radius)
    (hx2 : -p.radius ≤ p.x + currentWind * 0.5) :
    (loopAdvanceBack speed width height currentWind rnd [p]).map Particle.x =
      [p.x + currentWind * 0.5] ∧
    (initParticles density minRadius maxRadius rough w h ds).back.length =
      (⌊density * 0.8⌋).toNat ∧
    (∀ q ∈ (initParticles density minRadius maxRadius rough w h ds).back,
      ∃ rv : ℝ, q.vy = q.radius / 2.5 * 0.6 * (rv * (1.15 - 0.85) + 0.85)) ∧
    (∀ (g : ℝ) (q : Particle),
      loopBackRenderAlpha g q = max 0 (min 1 (q.opacity * 0.3 * g))) := by
  refine ⟨?_, ?_, ?_, fun g q => rfl⟩
  · have hsw : swayTerms p = 0 := by
      unfold swayTerms
      rw [hsway]
      ring
    have hrx : rawX 0.5 currentWind p = p.x + currentWind * 0.5 := by
      unfold rawX
      rw [hsw, hvx]
      ring
    have hry : ¬ (rawY speed p > height + p.radius) := by
      unfold rawY
      rw [hvy]
      push_neg
      linarith
    unfold loopAdvanceBack
    rw [updateParticles_singleton]
    simp only [List.map_cons, List.map_nil, List.cons.injEq, and_true]
    rw [updateParticle_x_eq, if_neg hry, hrx]
    exact wrapX_of_mem _ _ _ hx1 hx2
  · simp [initParticles, generateParticles, backCount]
  · intro q hq
    simp only [initParticles, generateParticles, List.mem_map, List.mem_range] at hq
    obtain ⟨i, _, hqi⟩ := hq
    subst hqi
    exact ⟨(ds.back i).rSpeedVar, rfl⟩

theorem backLayer_tuning_witness :
    ((pB.swayAmplitude = 0 ∧ pB.vx = 0 ∧ pB.vy = 0 ∧
      pB.y ≤ 100 + pB.radius ∧ pB.x + 1 * 0.5 ≤ 100 + pB.radius ∧
      -pB.radius ≤ pB.x + 1 * 0.5) ∧
    ((loopAdvanceBack 1 100 100 1 (fun _ => 0) [pB]).map Particle.x =
        [pB.x + 1 * 0.5] ∧
      (initParticles 1200 5 10 1 100 100 dsB).back.length =
        (⌊(1200:ℚ) * 0.8⌋).toNat ∧
      (∀ (g : ℝ) (q : Particle),
        loopBackRenderAlpha g q = max 0 (min 1 (q.opacity * 0.3 * g))))) := by
  have h := backLayer_tuning 1200 5 10 1 100 100 dsB 1 100 100 1 (fun _ => 0) pB
    rfl rfl rfl (by norm_num [pB]) (by norm_num [pB]) (by norm_num [pB])
  exact ⟨⟨rfl, rfl, rfl, by norm_num [pB], by norm_num [pB], by norm_num [pB]⟩,
    h.1, h.2.1, h.2.2.2⟩

end Snow
